import Mathlib

/-!
Shallow embedding of the core logic of the VR amblyoscope application
(`src/main.ts`): layer-mask constants, unit conversions, the eye-plane
state model, the per-eye visibility hook, and the XR session lifecycle
handlers.  Rendering, texture drawing and DOM wiring are external
collaborators and are not modelled; numbers are idealised as rationals.
-/

namespace Amblioscope

/-- Embeds `type AxisGroup = { x; y; z }` — three components, used for both
position (meters) and rotation (radians). -/
structure AxisGroup where
  x : ℚ
  y : ℚ
  z : ℚ
deriving DecidableEq, Repr

/-- Embeds `type ImageState = { position; rotation }` — the logical transform of
one eye's image. -/
structure ImageState where
  position : AxisGroup
  rotation : AxisGroup
deriving DecidableEq, Repr

/-- Embeds `const defaultLeft` (main.ts:73): position `{0,0,2}`, rotation `{0,0,0}`. -/
def defaultLeft : ImageState :=
  { position := { x := 0, y := 0, z := 2 }, rotation := { x := 0, y := 0, z := 0 } }

/-- Embeds `const defaultRight` (main.ts:78): position `{0,0,2}`, rotation `{0,0,0}`. -/
def defaultRight : ImageState :=
  { position := { x := 0, y := 0, z := 2 }, rotation := { x := 0, y := 0, z := 0 } }

/-- Embeds `const leftMask = 0x10000000` (main.ts:69). -/
def leftMask : Nat := 0x10000000

/-- Embeds `const rightMask = 0x20000000` (main.ts:70). -/
def rightMask : Nat := 0x20000000

/-- Embeds `const commonMask = 0x0fffffff` (main.ts:71). -/
def commonMask : Nat := 0x0fffffff

/-- The spec's `combine(...masks)` operation: bitwise OR of a list of
masks (the source writes the union inline, e.g.
`leftMask | rightMask | commonMask`, main.ts:112). -/
def combine (masks : List Nat) : Nat := masks.foldl (fun a b => a ||| b) 0

/-- Embeds `const viewingDistance = 2` (main.ts:87), meters. -/
def viewingDistance : ℚ := 2

/-- Embeds `const metersToDiopters = (m) => (m * 100) / viewingDistance` (main.ts:90). -/
def metersToDiopters (m : ℚ) : ℚ := m * 100 / viewingDistance

/-- Embeds `const dioptersToMeters = (d) => (d * viewingDistance) / 100` (main.ts:91). -/
def dioptersToMeters (d : ℚ) : ℚ := d * viewingDistance / 100

/-- Possible parents of a plane mesh in the scene graph: the desktop
`camera`, an XR rig sub-camera (by index), the XR session camera, or no
parent. -/
inductive Parent where
  | desktopCamera
  | rigCamera (i : Nat)
  | xrSessionCamera
  | noParent
deriving DecidableEq, Repr

/-- A plane mesh: the fields of the Babylon mesh that the core logic
reads and writes (`leftPlane` / `rightPlane` / `hudPlane`). -/
structure Plane where
  layerMask : Nat
  isVisible : Bool
  parent : Parent
  position : AxisGroup
  rotation : AxisGroup
deriving DecidableEq, Repr

/-- A standard material: the fields the core logic touches
(`alpha`, `diffuseTexture` identified by its texture name). -/
structure Material where
  alpha : ℚ
  diffuseTexture : String
deriving DecidableEq, Repr

/-- The XR session camera exposed by the XR helper: its own layer mask
and the layer masks of its rig sub-cameras. -/
structure XrSessionCamera where
  layerMask : Nat
  rigCameras : List Nat
deriving DecidableEq, Repr

/-- An image set entry (main.ts:33): id, display name, and the names of
the dynamic textures its two factory functions create. -/
structure ImageSet where
  id : String
  name : String
  leftTextureName : String
  rightTextureName : String
deriving DecidableEq, Repr

/-- Embeds `const imageSets` (main.ts:40), with each texture identified by the
name its `createXTexture` factory gives the `DynamicTexture`. -/
def imageSets : List ImageSet :=
  [ { id := "car-garage", name := "Car & Garage",
      leftTextureName := "tex-car", rightTextureName := "tex-garage" },
    { id := "bunny-flowers", name := "Bunny & Flowers",
      leftTextureName := "tex-bunny-flowers", rightTextureName := "tex-bunny-empty" },
    { id := "stereopsis", name := "Stereopsis Test",
      leftTextureName := "tex-stereo-left", rightTextureName := "tex-stereo-right" },
    { id := "grid", name := "Grid Pattern",
      leftTextureName := "tex-LEFT", rightTextureName := "tex-RIGHT" } ]

/-- The module-level mutable state of `main.ts` that the claims concern:
the two logical eye states, the three planes, the two materials, the XR
session bookkeeping, and the before-camera-render observer registry
(observers are identified by a fresh numeric id; `registeredObservers`
models `scene.onBeforeCameraRenderObservable`'s observer list). -/
structure AppState where
  leftState : ImageState
  rightState : ImageState
  leftPlane : Plane
  rightPlane : Plane
  hudPlane : Plane
  leftMaterial : Material
  rightMaterial : Material
  currentImageSetId : String
  disposedTextures : List String
  inXrSession : Bool
  xrCamera : Option XrSessionCamera
  xrRigCameras : List Nat
  beforeCameraObserver : Option Nat
  registeredObservers : List Nat
  nextObserverId : Nat
  previewEnabled : Bool
  activeCameras : Option (List String)
  showHudInVR : Bool
deriving DecidableEq, Repr

/-- Embeds `function applyState(mesh, state)` (main.ts:365): copies the stored
position and rotation onto the mesh. -/
def applyState (mesh : Plane) (state : ImageState) : Plane :=
  { mesh with position := state.position, rotation := state.rotation }

/-- Embeds `function enablePerEyeVisibility()` (main.ts:1249): if an observer is
already registered, return; otherwise register a fresh observer on
`scene.onBeforeCameraRenderObservable` and remember its handle. -/
def enablePerEyeVisibility (s : AppState) : AppState :=
  match s.beforeCameraObserver with
  | some _ => s
  | none =>
    { s with
      beforeCameraObserver := some s.nextObserverId
      registeredObservers := s.registeredObservers ++ [s.nextObserverId]
      nextObserverId := s.nextObserverId + 1 }

/-- Embeds `function disablePerEyeVisibility()` (main.ts:1271): if no observer
is registered, return; otherwise remove it from the observable and null
the handle. -/
def disablePerEyeVisibility (s : AppState) : AppState :=
  match s.beforeCameraObserver with
  | none => s
  | some oid =>
    { s with
      beforeCameraObserver := none
      registeredObservers := s.registeredObservers.filter (fun x => x ≠ oid) }

/-- The kind of camera passed to the before-camera-render callback.
Babylon's `isLeftCamera` / `isRightCamera` flags are mutually exclusive
(they are set only on the two rig sub-cameras of a stereo rig), so the
camera argument is modelled as left / right / other. -/
inductive RenderCameraKind where
  | left
  | right
  | other
deriving DecidableEq, Repr

/-- The callback body registered by `enablePerEyeVisibility`
(main.ts:1251-1268): a no-op outside an XR session; for a left rig
camera shows only the left plane, for a right rig camera only the right
plane, and for any other camera both planes. -/
def onBeforeCameraRender (s : AppState) (renderCamera : RenderCameraKind) : AppState :=
  if s.inXrSession = false then s
  else
    match renderCamera with
    | .left =>
      { s with
        leftPlane := { s.leftPlane with isVisible := true }
        rightPlane := { s.rightPlane with isVisible := false } }
    | .right =>
      { s with
        leftPlane := { s.leftPlane with isVisible := false }
        rightPlane := { s.rightPlane with isVisible := true } }
    | .other =>
      { s with
        leftPlane := { s.leftPlane with isVisible := true }
        rightPlane := { s.rightPlane with isVisible := true } }

/-- Embeds `function resetHeadLockedPlanes()` (main.ts:1240): resets both eye
states to the defaults and reapplies both plane transforms. -/
def resetHeadLockedPlanes (s : AppState) : AppState :=
  let s1 := { s with
    leftState := { position := defaultLeft.position, rotation := defaultLeft.rotation }
    rightState := { position := defaultRight.position, rotation := defaultRight.rotation } }
  { s1 with
    leftPlane := applyState s1.leftPlane s1.leftState
    rightPlane := applyState s1.rightPlane s1.rightState }

/-- Embeds `function applyXrOverrides(inXr)` (main.ts:1202): the visibility /
parenting state machine.  Outside XR: exclusive masks, both planes
visible, hook detached, planes parented to the desktop camera, and
transforms reapplied from the stored states.  In XR: common masks, hook
attached, planes parented to the rig cameras (stereo) or the session
camera (monoscopic fallback), HUD parented to the session camera, and
transforms reapplied. -/
def applyXrOverrides (inXr : Bool) (s : AppState) : AppState :=
  if inXr = false then
    let s1 := { s with
      leftPlane := { s.leftPlane with layerMask := leftMask, isVisible := true }
      rightPlane := { s.rightPlane with layerMask := rightMask, isVisible := true }
      hudPlane := { s.hudPlane with isVisible := false } }
    let s2 := disablePerEyeVisibility s1
    let s3 := { s2 with
      leftPlane := { s2.leftPlane with parent := Parent.desktopCamera }
      rightPlane := { s2.rightPlane with parent := Parent.desktopCamera }
      hudPlane := { s2.hudPlane with parent := Parent.noParent } }
    { s3 with
      leftPlane := applyState s3.leftPlane s3.leftState
      rightPlane := applyState s3.rightPlane s3.rightState }
  else
    let s1 := { s with
      leftPlane := { s.leftPlane with layerMask := commonMask }
      rightPlane := { s.rightPlane with layerMask := commonMask } }
    let s2 := enablePerEyeVisibility s1
    let s3 :=
      if s2.xrRigCameras.length ≥ 2 then
        { s2 with
          leftPlane := { s2.leftPlane with parent := Parent.rigCamera 0 }
          rightPlane := { s2.rightPlane with parent := Parent.rigCamera 1 } }
      else if s2.xrCamera.isSome then
        { s2 with
          leftPlane := { s2.leftPlane with parent := Parent.xrSessionCamera }
          rightPlane := { s2.rightPlane with parent := Parent.xrSessionCamera } }
      else s2
    let s4 :=
      if s3.xrCamera.isSome then
        { s3 with
          hudPlane := { s3.hudPlane with
            parent := Parent.xrSessionCamera
            position := { x := 0, y := -4/5, z := 11/5 }
            isVisible := s3.showHudInVR } }
      else s3
    { s4 with
      leftPlane := applyState s4.leftPlane s4.leftState
      rightPlane := applyState s4.rightPlane s4.rightState }

/-- The `IN_XR` branch of the `onStateChangedObservable` handler
(main.ts:324-344), taking the XR helper's session camera at event time:
assigns rig-camera masks (or the combined fallback mask to the session
camera), records the rig cameras and session camera, raises opacity to
full, disables the desktop preview and invokes `applyXrOverrides(true)`. -/
def enterXrHandler (xrCamIn : Option XrSessionCamera) (s : AppState) : AppState :=
  let rigCameras :=
    match xrCamIn with
    | some c => c.rigCameras
    | none => []
  let rigCameras2 :=
    if rigCameras.length ≥ 2 then
      (rigCameras.set 0 (leftMask ||| commonMask)).set 1 (rightMask ||| commonMask)
    else rigCameras
  let xrCam2 : Option XrSessionCamera :=
    if rigCameras.length ≥ 2 then
      xrCamIn.map (fun c => { c with rigCameras := rigCameras2 })
    else
      xrCamIn.map (fun c =>
        { c with layerMask := leftMask ||| rightMask ||| commonMask })
  let s1 := { s with
    xrRigCameras := rigCameras2
    xrCamera := xrCam2
    inXrSession := true
    previewEnabled := false
    activeCameras := none
    leftMaterial := { s.leftMaterial with alpha := 1 }
    rightMaterial := { s.rightMaterial with alpha := 1 } }
  applyXrOverrides true s1

/-- The `NOT_IN_XR` branch of the `onStateChangedObservable` handler
(main.ts:346-358): clears the session flag and rig cameras, invokes
`applyXrOverrides(false)`, drops the session camera, re-enables the
desktop preview cameras and restores half opacity. -/
def exitXrHandler (s : AppState) : AppState :=
  let s1 := { s with inXrSession := false, xrRigCameras := [] }
  let s2 := applyXrOverrides false s1
  { s2 with
    xrCamera := none
    previewEnabled := true
    activeCameras := some ["camera", "leftPreview", "rightPreview"]
    leftMaterial := { s2.leftMaterial with alpha := 1/2 }
    rightMaterial := { s2.rightMaterial with alpha := 1/2 } }

/-- The `onRecenterXr` handler (main.ts:305-310): only while the XR
session state is `IN_XR` does it reset the head-locked planes (the
subsequent `syncControls()` only refreshes DOM sliders). -/
def onRecenterXr (s : AppState) : AppState :=
  if s.inXrSession then resetHeadLockedPlanes s else s

/-- Embeds `function setImageSet(setId)` (main.ts:157): looks the id up in
`imageSets`; on a miss returns with no change, on a hit records the id,
disposes both old diffuse textures and installs the set's textures. -/
def setImageSet (setId : String) (s : AppState) : AppState :=
  match imageSets.find? (fun im => im.id == setId) with
  | none => s
  | some imageSet =>
    { s with
      currentImageSetId := setId
      disposedTextures :=
        s.disposedTextures ++ [s.leftMaterial.diffuseTexture, s.rightMaterial.diffuseTexture]
      leftMaterial := { s.leftMaterial with diffuseTexture := imageSet.leftTextureName }
      rightMaterial := { s.rightMaterial with diffuseTexture := imageSet.rightTextureName } }

/-- The module-level state right after startup (main.ts:142-225): planes
with exclusive masks parented to the desktop camera, transforms applied
from the default states, half-opacity materials holding the car/garage
textures, no XR session, no observer. -/
def initState : AppState :=
  { leftState := defaultLeft
    rightState := defaultRight
    leftPlane :=
      { layerMask := leftMask, isVisible := true, parent := Parent.desktopCamera
        position := defaultLeft.position, rotation := defaultLeft.rotation }
    rightPlane :=
      { layerMask := rightMask, isVisible := true, parent := Parent.desktopCamera
        position := defaultRight.position, rotation := defaultRight.rotation }
    hudPlane :=
      { layerMask := commonMask, isVisible := false, parent := Parent.noParent
        position := { x := 0, y := 0, z := 0 }, rotation := { x := 0, y := 0, z := 0 } }
    leftMaterial := { alpha := 1/2, diffuseTexture := "tex-car" }
    rightMaterial := { alpha := 1/2, diffuseTexture := "tex-garage" }
    currentImageSetId := "car-garage"
    disposedTextures := []
    inXrSession := false
    xrCamera := none
    xrRigCameras := []
    beforeCameraObserver := none
    registeredObservers := []
    nextObserverId := 0
    previewEnabled := true
    activeCameras := some ["camera", "leftPreview", "rightPreview"]
    showHudInVR := true }

/-! Projection lemmas: the hook attach/detach operations only touch the
observer bookkeeping fields. -/

@[simp]
theorem enable_leftState (s : AppState) :
    (enablePerEyeVisibility s).leftState = s.leftState := by
  unfold enablePerEyeVisibility; cases s.beforeCameraObserver <;> rfl

@[simp]
theorem enable_rightState (s : AppState) :
    (enablePerEyeVisibility s).rightState = s.rightState := by
  unfold enablePerEyeVisibility; cases s.beforeCameraObserver <;> rfl

@[simp]
theorem enable_leftPlane (s : AppState) :
    (enablePerEyeVisibility s).leftPlane = s.leftPlane := by
  unfold enablePerEyeVisibility; cases s.beforeCameraObserver <;> rfl

@[simp]
theorem enable_rightPlane (s : AppState) :
    (enablePerEyeVisibility s).rightPlane = s.rightPlane := by
  unfold enablePerEyeVisibility; cases s.beforeCameraObserver <;> rfl

@[simp]
theorem enable_hudPlane (s : AppState) :
    (enablePerEyeVisibility s).hudPlane = s.hudPlane := by
  unfold enablePerEyeVisibility; cases s.beforeCameraObserver <;> rfl

@[simp]
theorem enable_leftMaterial (s : AppState) :
    (enablePerEyeVisibility s).leftMaterial = s.leftMaterial := by
  unfold enablePerEyeVisibility; cases s.beforeCameraObserver <;> rfl

@[simp]
theorem enable_rightMaterial (s : AppState) :
    (enablePerEyeVisibility s).rightMaterial = s.rightMaterial := by
  unfold enablePerEyeVisibility; cases s.beforeCameraObserver <;> rfl

@[simp]
theorem enable_xrCamera (s : AppState) :
    (enablePerEyeVisibility s).xrCamera = s.xrCamera := by
  unfold enablePerEyeVisibility; cases s.beforeCameraObserver <;> rfl

@[simp]
theorem enable_xrRigCameras (s : AppState) :
    (enablePerEyeVisibility s).xrRigCameras = s.xrRigCameras := by
  unfold enablePerEyeVisibility; cases s.beforeCameraObserver <;> rfl

@[simp]
theorem enable_inXrSession (s : AppState) :
    (enablePerEyeVisibility s).inXrSession = s.inXrSession := by
  unfold enablePerEyeVisibility; cases s.beforeCameraObserver <;> rfl

@[simp]
theorem enable_showHudInVR (s : AppState) :
    (enablePerEyeVisibility s).showHudInVR = s.showHudInVR := by
  unfold enablePerEyeVisibility; cases s.beforeCameraObserver <;> rfl

@[simp]
theorem disable_leftState (s : AppState) :
    (disablePerEyeVisibility s).leftState = s.leftState := by
  unfold disablePerEyeVisibility; cases s.beforeCameraObserver <;> rfl

@[simp]
theorem disable_rightState (s : AppState) :
    (disablePerEyeVisibility s).rightState = s.rightState := by
  unfold disablePerEyeVisibility; cases s.beforeCameraObserver <;> rfl

@[simp]
theorem disable_leftPlane (s : AppState) :
    (disablePerEyeVisibility s).leftPlane = s.leftPlane := by
  unfold disablePerEyeVisibility; cases s.beforeCameraObserver <;> rfl

@[simp]
theorem disable_rightPlane (s : AppState) :
    (disablePerEyeVisibility s).rightPlane = s.rightPlane := by
  unfold disablePerEyeVisibility; cases s.beforeCameraObserver <;> rfl

@[simp]
theorem disable_hudPlane (s : AppState) :
    (disablePerEyeVisibility s).hudPlane = s.hudPlane := by
  unfold disablePerEyeVisibility; cases s.beforeCameraObserver <;> rfl

@[simp]
theorem disable_leftMaterial (s : AppState) :
    (disablePerEyeVisibility s).leftMaterial = s.leftMaterial := by
  unfold disablePerEyeVisibility; cases s.beforeCameraObserver <;> rfl

@[simp]
theorem disable_rightMaterial (s : AppState) :
    (disablePerEyeVisibility s).rightMaterial = s.rightMaterial := by
  unfold disablePerEyeVisibility; cases s.beforeCameraObserver <;> rfl

@[simp]
theorem disable_xrCamera (s : AppState) :
    (disablePerEyeVisibility s).xrCamera = s.xrCamera := by
  unfold disablePerEyeVisibility; cases s.beforeCameraObserver <;> rfl

@[simp]
theorem disable_xrRigCameras (s : AppState) :
    (disablePerEyeVisibility s).xrRigCameras = s.xrRigCameras := by
  unfold disablePerEyeVisibility; cases s.beforeCameraObserver <;> rfl

@[simp]
theorem disable_inXrSession (s : AppState) :
    (disablePerEyeVisibility s).inXrSession = s.inXrSession := by
  unfold disablePerEyeVisibility; cases s.beforeCameraObserver <;> rfl

@[simp]
theorem disable_showHudInVR (s : AppState) :
    (disablePerEyeVisibility s).showHudInVR = s.showHudInVR := by
  unfold disablePerEyeVisibility; cases s.beforeCameraObserver <;> rfl

@[simp]
theorem disable_observerHandle (s : AppState) :
    (disablePerEyeVisibility s).beforeCameraObserver = none := by
  unfold disablePerEyeVisibility; cases h : s.beforeCameraObserver <;> simp [h]

/-! Projection lemmas for the state machine and the lifecycle handlers. -/

@[simp]
theorem applyXrOverrides_leftState (inXr : Bool) (s : AppState) :
    (applyXrOverrides inXr s).leftState = s.leftState := by
  cases inXr <;> simp only [applyXrOverrides] <;> split_ifs <;> simp

@[simp]
theorem applyXrOverrides_rightState (inXr : Bool) (s : AppState) :
    (applyXrOverrides inXr s).rightState = s.rightState := by
  cases inXr <;> simp only [applyXrOverrides] <;> split_ifs <;> simp

@[simp]
theorem applyXrOverrides_xrCamera (inXr : Bool) (s : AppState) :
    (applyXrOverrides inXr s).xrCamera = s.xrCamera := by
  cases inXr <;> simp only [applyXrOverrides] <;> split_ifs <;> simp

@[simp]
theorem applyXrOverrides_xrRigCameras (inXr : Bool) (s : AppState) :
    (applyXrOverrides inXr s).xrRigCameras = s.xrRigCameras := by
  cases inXr <;> simp only [applyXrOverrides] <;> split_ifs <;> simp

/-- Full characterisation of the desktop branch of `applyXrOverrides`:
exclusive masks, both planes visible and parented to the desktop camera,
HUD hidden and unparented, hook detached, transforms reapplied from the
stored eye states. -/
theorem applyXrOverrides_false_eq (s : AppState) :
    applyXrOverrides false s =
      { disablePerEyeVisibility s with
        leftPlane :=
          { layerMask := leftMask, isVisible := true, parent := Parent.desktopCamera
            position := s.leftState.position, rotation := s.leftState.rotation }
        rightPlane :=
          { layerMask := rightMask, isVisible := true, parent := Parent.desktopCamera
            position := s.rightState.position, rotation := s.rightState.rotation }
        hudPlane := { s.hudPlane with isVisible := false, parent := Parent.noParent } } := by
  cases h : s.beforeCameraObserver <;>
    simp [applyXrOverrides, disablePerEyeVisibility, applyState, h]

/-- C1: the per-frame before-camera-render hook, for every camera it is
invoked on: a camera flagged left makes the left plane visible and the
right plane invisible; a camera flagged right the reverse; any other
camera makes both visible; and outside an active XR session the hook is
a no-op. -/
theorem perEyeVisibilityHook_spec (s : AppState) (cam : RenderCameraKind) :
    (s.inXrSession = true →
      ((onBeforeCameraRender s .left).leftPlane.isVisible = true ∧
        (onBeforeCameraRender s .left).rightPlane.isVisible = false) ∧
      ((onBeforeCameraRender s .right).leftPlane.isVisible = false ∧
        (onBeforeCameraRender s .right).rightPlane.isVisible = true) ∧
      ((onBeforeCameraRender s .other).leftPlane.isVisible = true ∧
        (onBeforeCameraRender s .other).rightPlane.isVisible = true)) ∧
    (s.inXrSession = false → onBeforeCameraRender s cam = s) := by
  cases h : s.inXrSession <;> cases cam <;> simp [onBeforeCameraRender, h]

/-- Witness for C1: the hook behaves as specified on a concrete in-session
state and is the identity on the concrete out-of-session startup state. -/
theorem perEyeVisibilityHook_spec_witness :
    (({ initState with inXrSession := true } : AppState).inXrSession = true ∧
      (onBeforeCameraRender { initState with inXrSession := true } .left).leftPlane.isVisible
        = true ∧
      (onBeforeCameraRender { initState with inXrSession := true } .left).rightPlane.isVisible
        = false) ∧
    (initState.inXrSession = false ∧
      onBeforeCameraRender initState .other = initState) := by
  refine ⟨⟨rfl, ?_, ?_⟩, rfl, ?_⟩
  · exact ((perEyeVisibilityHook_spec { initState with inXrSession := true } .left).1 rfl).1.1
  · exact ((perEyeVisibilityHook_spec { initState with inXrSession := true } .left).1 rfl).1.2
  · exact (perEyeVisibilityHook_spec initState .other).2 rfl

/-- Computes the rig-camera mask list stored by the enter handler. -/
theorem enterXr_xrRigCameras (c : XrSessionCamera) (s : AppState) :
    (enterXrHandler (some c) s).xrRigCameras =
      if 2 ≤ c.rigCameras.length then
        (c.rigCameras.set 0 (leftMask ||| commonMask)).set 1 (rightMask ||| commonMask)
      else c.rigCameras := by
  unfold enterXrHandler
  rw [applyXrOverrides_xrRigCameras]

/-- Computes the session camera stored by the enter handler. -/
theorem enterXr_xrCamera (c : XrSessionCamera) (s : AppState) :
    (enterXrHandler (some c) s).xrCamera =
      if 2 ≤ c.rigCameras.length then
        some { c with rigCameras :=
          (c.rigCameras.set 0 (leftMask ||| commonMask)).set 1 (rightMask ||| commonMask) }
      else some { c with layerMask := leftMask ||| rightMask ||| commonMask } := by
  unfold enterXrHandler
  rw [applyXrOverrides_xrCamera]
  split_ifs with h <;> simp [h]

/-- C2: on entering an XR session, with at least two rig cameras, rig
camera 0 gets mask `LEFT|COMMON` and rig camera 1 gets `RIGHT|COMMON`;
with fewer than two, the single session camera gets the fallback mask
`LEFT|RIGHT|COMMON`. -/
theorem rigCameraMask_assignment (s : AppState) (xrCam : XrSessionCamera) :
    (2 ≤ xrCam.rigCameras.length →
      (enterXrHandler (some xrCam) s).xrRigCameras.get? 0 = some (leftMask ||| commonMask) ∧
      (enterXrHandler (some xrCam) s).xrRigCameras.get? 1 = some (rightMask ||| commonMask)) ∧
    (xrCam.rigCameras.length < 2 →
      (enterXrHandler (some xrCam) s).xrCamera =
        some { xrCam with layerMask := leftMask ||| rightMask ||| commonMask }) := by
  constructor
  · intro h
    rcases hl : xrCam.rigCameras with _ | ⟨a, _ | ⟨b, t⟩⟩
    · rw [hl] at h; simp at h
    · rw [hl] at h; simp at h
    · rw [enterXr_xrRigCameras, if_pos h, hl]
      constructor <;> rfl
  · intro h
    have h2 : ¬ 2 ≤ xrCam.rigCameras.length := by omega
    rw [enterXr_xrCamera, if_neg h2]

/-- Witness for C2: with a concrete two-rig-camera session camera both
rig masks are assigned, and with a concrete rig-less session camera the
fallback mask is assigned. -/
theorem rigCameraMask_assignment_witness :
    (2 ≤ ({ layerMask := 0, rigCameras := [0, 0] } : XrSessionCamera).rigCameras.length ∧
      (enterXrHandler (some { layerMask := 0, rigCameras := [0, 0] }) initState).xrRigCameras.get? 0
        = some (leftMask ||| commonMask)) ∧
    (({ layerMask := 0, rigCameras := [] } : XrSessionCamera).rigCameras.length < 2 ∧
      (enterXrHandler (some { layerMask := 0, rigCameras := [] }) initState).xrCamera =
        some { layerMask := leftMask ||| rightMask ||| commonMask, rigCameras := [] }) := by
  refine ⟨⟨by decide, ?_⟩, by decide, ?_⟩
  · exact ((rigCameraMask_assignment initState
      { layerMask := 0, rigCameras := [0, 0] }).1 (by decide)).1
  · exact (rigCameraMask_assignment initState
      { layerMask := 0, rigCameras := [] }).2 (by decide)

/-- C3: a Desktop → InXR → Desktop transition sequence with no recenter
action in between leaves both logical eye states (position and rotation)
exactly as they were. -/
theorem desktopXrRoundTrip_preservesEyeStates (s : AppState) (xrCam : Option XrSessionCamera) :
    (exitXrHandler (enterXrHandler xrCam s)).leftState = s.leftState ∧
    (exitXrHandler (enterXrHandler xrCam s)).rightState = s.rightState := by
  constructor <;> simp [exitXrHandler, enterXrHandler]

/-- C4: on session end the plane masks revert to the exclusive LEFT and
RIGHT masks, both material opacities return to 0.5, both planes are
re-parented to the desktop camera, and each plane's transform is
reapplied from its stored eye state. -/
theorem exitXr_restoresDesktopConfiguration (s : AppState) :
    (exitXrHandler s).leftPlane.layerMask = leftMask ∧
    (exitXrHandler s).rightPlane.layerMask = rightMask ∧
    (exitXrHandler s).leftMaterial.alpha = 1/2 ∧
    (exitXrHandler s).rightMaterial.alpha = 1/2 ∧
    (exitXrHandler s).leftPlane.parent = Parent.desktopCamera ∧
    (exitXrHandler s).rightPlane.parent = Parent.desktopCamera ∧
    (exitXrHandler s).leftPlane.position = s.leftState.position ∧
    (exitXrHandler s).leftPlane.rotation = s.leftState.rotation ∧
    (exitXrHandler s).rightPlane.position = s.rightState.position ∧
    (exitXrHandler s).rightPlane.rotation = s.rightState.rotation := by
  simp [exitXrHandler, applyXrOverrides_false_eq]

/-- C5: leaving an XR session synchronously detaches the per-frame
before-camera-render observer: after every exit the handle is null and
the previously registered observer is no longer in the observable's
list. -/
theorem exitXr_detachesObserver (s : AppState) :
    (exitXrHandler s).beforeCameraObserver = none ∧
    (∀ oid, s.beforeCameraObserver = some oid →
      oid ∉ (exitXrHandler s).registeredObservers) := by
  constructor
  · simp [exitXrHandler, applyXrOverrides_false_eq]
  · intro oid h
    simp [exitXrHandler, applyXrOverrides_false_eq, disablePerEyeVisibility, h,
      List.mem_filter]

/-- Witness for C5: exiting from the concrete state reached by entering a
session (which registers observer 0) leaves a null handle and removes
observer 0 from the observable. -/
theorem exitXr_detachesObserver_witness :
    (exitXrHandler initState).beforeCameraObserver = none ∧
    ((enterXrHandler none initState).beforeCameraObserver = some 0 ∧
      0 ∉ (exitXrHandler (enterXrHandler none initState)).registeredObservers) := by
  refine ⟨(exitXr_detachesObserver initState).1, rfl, ?_⟩
  exact (exitXr_detachesObserver (enterXrHandler none initState)).2 0 rfl

/-- C6: the recenter action is a no-op outside an XR session; while a
session is active it resets both eye states to their defaults (position
`{0,0,2}`, rotation `{0,0,0}`) and immediately reapplies both plane
transforms from the reset state. -/
theorem recenter_spec (s : AppState) :
    (s.inXrSession = false → onRecenterXr s = s) ∧
    (s.inXrSession = true →
      (onRecenterXr s).leftState = defaultLeft ∧
      (onRecenterXr s).rightState = defaultRight ∧
      defaultLeft =
        { position := { x := 0, y := 0, z := 2 }, rotation := { x := 0, y := 0, z := 0 } } ∧
      defaultRight =
        { position := { x := 0, y := 0, z := 2 }, rotation := { x := 0, y := 0, z := 0 } } ∧
      (onRecenterXr s).leftPlane.position = defaultLeft.position ∧
      (onRecenterXr s).leftPlane.rotation = defaultLeft.rotation ∧
      (onRecenterXr s).rightPlane.position = defaultRight.position ∧
      (onRecenterXr s).rightPlane.rotation = defaultRight.rotation) := by
  cases h : s.inXrSession <;>
    simp [onRecenterXr, resetHeadLockedPlanes, applyState, h, defaultLeft, defaultRight]

/-- Witness for C6: recenter is the identity on the concrete startup
state, and on a concrete in-session state it resets the left eye state
to the default. -/
theorem recenter_spec_witness :
    (initState.inXrSession = false ∧ onRecenterXr initState = initState) ∧
    (({ initState with inXrSession := true } : AppState).inXrSession = true ∧
      (onRecenterXr { initState with inXrSession := true }).leftState = defaultLeft) := by
  refine ⟨⟨rfl, ?_⟩, rfl, ?_⟩
  · exact (recenter_spec initState).1 rfl
  · exact ((recenter_spec { initState with inXrSession := true }).2 rfl).1

/-- C7: the union `combine(LEFT, RIGHT, COMMON)` intersects each of the
three mask regions, and the three regions are pairwise disjoint. -/
theorem maskAlgebra :
    combine [leftMask, rightMask, commonMask] &&& leftMask ≠ 0 ∧
    combine [leftMask, rightMask, commonMask] &&& rightMask ≠ 0 ∧
    combine [leftMask, rightMask, commonMask] &&& commonMask ≠ 0 ∧
    leftMask &&& rightMask = 0 ∧
    leftMask &&& commonMask = 0 ∧
    rightMask &&& commonMask = 0 := by
  decide

/-- C8: with the fixed viewing distance of 2 meters, converting meters to
prism diopters and back is the identity. -/
theorem diopters_roundTrip (m : ℚ) :
    dioptersToMeters (metersToDiopters m) = m := by
  unfold dioptersToMeters metersToDiopters viewingDistance
  ring

/-- C9: attaching the per-eye visibility hook is idempotent (a second
call with an observer already registered changes nothing, so at most one
observer ever exists), detaching with no observer registered is a no-op,
and after detaching the observer handle is null. -/
theorem perEyeHook_attach_detach_algebra (s : AppState) :
    (∀ oid, s.beforeCameraObserver = some oid → enablePerEyeVisibility s = s) ∧
    enablePerEyeVisibility (enablePerEyeVisibility s) = enablePerEyeVisibility s ∧
    (s.beforeCameraObserver = none → disablePerEyeVisibility s = s) ∧
    (disablePerEyeVisibility s).beforeCameraObserver = none := by
  refine ⟨?_, ?_, ?_, disable_observerHandle s⟩
  · intro oid h
    unfold enablePerEyeVisibility
    rw [h]
  · unfold enablePerEyeVisibility
    cases h : s.beforeCameraObserver <;> simp [h]
  · intro h
    unfold disablePerEyeVisibility
    rw [h]

/-- Witness for C9: on the concrete startup state (no observer) disable
is the identity; on the state after one attach (observer registered) a
second attach changes nothing. -/
theorem perEyeHook_attach_detach_algebra_witness :
    (initState.beforeCameraObserver = none ∧
      disablePerEyeVisibility initState = initState) ∧
    ((enablePerEyeVisibility initState).beforeCameraObserver = some 0 ∧
      enablePerEyeVisibility (enablePerEyeVisibility initState) =
        enablePerEyeVisibility initState) := by
  refine ⟨⟨rfl, ?_⟩, rfl, ?_⟩
  · exact (perEyeHook_attach_detach_algebra initState).2.2.1 rfl
  · exact ((perEyeHook_attach_detach_algebra (enablePerEyeVisibility initState)).1 0 rfl).symm ▸
      (perEyeHook_attach_detach_algebra initState).2.1

/-- C10: `setImageSet` with an id matching no registry entry leaves the
whole state unchanged; with a matching id it records the id, disposes
both old diffuse textures and installs the set's left and right
textures. -/
theorem setImageSet_spec (s : AppState) (setId : String) :
    (imageSets.find? (fun im => im.id == setId) = none →
      setImageSet setId s = s) ∧
    (∀ im, imageSets.find? (fun im2 => im2.id == setId) = some im →
      (setImageSet setId s).currentImageSetId = setId ∧
      (setImageSet setId s).leftMaterial.diffuseTexture = im.leftTextureName ∧
      (setImageSet setId s).rightMaterial.diffuseTexture = im.rightTextureName ∧
      s.leftMaterial.diffuseTexture ∈ (setImageSet setId s).disposedTextures ∧
      s.rightMaterial.diffuseTexture ∈ (setImageSet setId s).disposedTextures) := by
  constructor
  · intro h
    unfold setImageSet
    rw [h]
  · intro im h
    unfold setImageSet
    rw [h]
    simp

/-- Witness for C10: a concrete unknown id leaves the startup state
unchanged, and the concrete id "grid" installs the grid textures and
disposes the old ones. -/
theorem setImageSet_spec_witness :
    (imageSets.find? (fun im => im.id == "no-such-set") = none ∧
      setImageSet "no-such-set" initState = initState) ∧
    (imageSets.find? (fun im2 => im2.id == "grid") =
        some { id := "grid", name := "Grid Pattern",
               leftTextureName := "tex-LEFT", rightTextureName := "tex-RIGHT" } ∧
      (setImageSet "grid" initState).currentImageSetId = "grid" ∧
      (setImageSet "grid" initState).leftMaterial.diffuseTexture = "tex-LEFT" ∧
      initState.leftMaterial.diffuseTexture ∈ (setImageSet "grid" initState).disposedTextures) := by
  have h1 : imageSets.find? (fun im => im.id == "no-such-set") = none := by decide
  have h2 : imageSets.find? (fun im2 => im2.id == "grid") =
      some { id := "grid", name := "Grid Pattern",
             leftTextureName := "tex-LEFT", rightTextureName := "tex-RIGHT" } := by decide
  have hmain := setImageSet_spec initState "grid"
  have hmiss := setImageSet_spec initState "no-such-set"
  refine ⟨⟨h1, hmiss.1 h1⟩, h2, ?_, ?_, ?_⟩
  · exact (hmain.2 _ h2).1
  · exact (hmain.2 _ h2).2.1
  · exact (hmain.2 _ h2).2.2.2.1

end Amblioscope
